import Mathlib

/-!
Verification of the authentication and request-integrity pipeline of a
TypeScript/Express boilerplate API server.

The development shallowly embeds the core components:
* `src/utils/jwt.ts` (`JWTUtils`): token issuance/verification and bearer
  extraction.  The external `jsonwebtoken` library is modelled symbolically:
  a signed token records its claims and the secret used to sign it, and
  verification checks the secret, issuer, audience and expiry.
* `src/middleware/auth.ts` (inlined in `userService.ts` here):
  `authenticateToken` and `requireOwnership`.
* `src/errors/errorHandler.ts`: `handlePrismaError` and the error classes.
* `src/validation/middleware.ts` and `schemas.ts`: the Zod `paginationSchema`
  and the `validate` middleware that collects issues into `details`.
* `src/services/userService.ts` / `src/routes/auth.ts`: `verifyPassword`
  and the failure behaviour of the login handler.

JavaScript peculiarities that matter are embedded faithfully: `String.split`
on a single character keeping empty segments, `parseInt` semantics,
truthiness of `""` and `undefined` in `a || b` expressions.
-/

/-- The JWT-relevant part of the configuration (`src/config`): two signing
secrets, two lifetimes (modelled in seconds), issuer and audience. -/
structure JwtConfig where
  secret : String
  refreshSecret : String
  expiresIn : Nat
  refreshExpiresIn : Nat
  issuer : String
  audience : String
deriving DecidableEq

/-- The payload `jwt.verify` hands back (`JWTPayload` in `jwt.ts`):
`userId`, `email` plus the numeric `iat`/`exp` claims. -/
structure JWTPayload where
  userId : String
  email : String
  iat : Nat
  exp : Nat
deriving DecidableEq

/-- The identity signed into a token (the payload without iat and exp,
also `UserAuthContext` in `models/User.ts`). -/
structure AuthContext where
  userId : String
  email : String
deriving DecidableEq

/-- Symbolic model of a compact signed token produced by `jwt.sign`: the
claims `userId`, `email`, `iat`, `exp`, `iss`, `aud`, and — standing in for
the cryptographic signature — the secret that signed it (`sig`).  Perfect
cryptography assumption: a signature checks out exactly when the verifying
secret equals the signing one. -/
structure SignedToken where
  userId : String
  email : String
  iat : Nat
  exp : Nat
  iss : String
  aud : String
  sig : String
deriving DecidableEq

/-- The distinct failure causes the `verify` of `jsonwebtoken` can raise
(signature mismatch, wrong issuer, wrong audience, expiry). -/
inductive JwtVerifyError where
  | invalidSignature
  | badIssuer
  | badAudience
  | expired
deriving DecidableEq

/-- Model of `jwt.sign(payload, secret, {expiresIn, issuer, audience})` at
time `now`: stamps `iat := now`, `exp := now + expiresIn`. -/
def jwtSign (p : AuthContext) (secret : String) (expiresIn : Nat)
    (issuer audience : String) (now : Nat) : SignedToken :=
  { userId := p.userId, email := p.email, iat := now, exp := now + expiresIn,
    iss := issuer, aud := audience, sig := secret }

/-- Model of `jwt.verify(token, secret, {issuer, audience})` at time `now`:
checks signature, issuer, audience and expiry, reporting the cause. -/
def jwtVerify (t : SignedToken) (secret issuer audience : String)
    (now : Nat) : Except JwtVerifyError JWTPayload :=
  if t.sig ≠ secret then .error .invalidSignature
  else if t.iss ≠ issuer then .error .badIssuer
  else if t.aud ≠ audience then .error .badAudience
  else if t.exp ≤ now then .error .expired
  else .ok { userId := t.userId, email := t.email, iat := t.iat, exp := t.exp }

/-- Model of `JWTUtils.generateToken`: sign `{userId, email}` with the access secret
and access lifetime. -/
def JWTUtils.generateToken (cfg : JwtConfig) (p : AuthContext) (now : Nat) :
    SignedToken :=
  jwtSign p cfg.secret cfg.expiresIn cfg.issuer cfg.audience now

/-- Model of `JWTUtils.verifyToken`: verify against the access secret; the
`try/catch` collapses every failure cause into the single error message
`"Invalid or expired token"`. -/
def JWTUtils.verifyToken (cfg : JwtConfig) (t : SignedToken) (now : Nat) :
    Except String JWTPayload :=
  match jwtVerify t cfg.secret cfg.issuer cfg.audience now with
  | .ok p => .ok p
  | .error _ => .error "Invalid or expired token"

/-- Model of `JWTUtils.generateRefreshToken`: same shape, refresh secret and
refresh lifetime. -/
def JWTUtils.generateRefreshToken (cfg : JwtConfig) (p : AuthContext)
    (now : Nat) : SignedToken :=
  jwtSign p cfg.refreshSecret cfg.refreshExpiresIn cfg.issuer cfg.audience now

/-- Model of `JWTUtils.verifyRefreshToken`: verify against the refresh secret; all
failures collapse to `"Invalid or expired refresh token"`. -/
def JWTUtils.verifyRefreshToken (cfg : JwtConfig) (t : SignedToken)
    (now : Nat) : Except String JWTPayload :=
  match jwtVerify t cfg.refreshSecret cfg.issuer cfg.audience now with
  | .ok p => .ok p
  | .error _ => .error "Invalid or expired refresh token"

/-- Claim C1: for every identity, verifying a token produced by the matching
issuer at issuance time round-trips — `verifyToken (generateToken p)` returns
a payload whose `userId` and `email` equal the input, and likewise
`verifyRefreshToken (generateRefreshToken p)` with the refresh secret —
provided the configured lifetimes are positive. -/
theorem token_roundtrip (cfg : JwtConfig) (p : AuthContext) (now : Nat)
    (ha : 0 < cfg.expiresIn) (hr : 0 < cfg.refreshExpiresIn) :
    (∃ q, JWTUtils.verifyToken cfg (JWTUtils.generateToken cfg p now) now
        = .ok q ∧ q.userId = p.userId ∧ q.email = p.email) ∧
    (∃ q, JWTUtils.verifyRefreshToken cfg
        (JWTUtils.generateRefreshToken cfg p now) now
        = .ok q ∧ q.userId = p.userId ∧ q.email = p.email) := by
  constructor
  · refine ⟨JWTPayload.mk p.userId p.email now (now + cfg.expiresIn),
      ?_, rfl, rfl⟩
    simp [JWTUtils.verifyToken, JWTUtils.generateToken, jwtSign, jwtVerify,
      ha.ne']
  · refine ⟨JWTPayload.mk p.userId p.email now (now + cfg.refreshExpiresIn),
      ?_, rfl, rfl⟩
    simp [JWTUtils.verifyRefreshToken, JWTUtils.generateRefreshToken,
      jwtSign, jwtVerify, hr.ne']

/-- Witness for C1 at a concrete configuration and identity. -/
theorem token_roundtrip_witness :
    (∃ q, JWTUtils.verifyToken
        { secret := "s", refreshSecret := "r", expiresIn := 900,
          refreshExpiresIn := 604800, issuer := "iss", audience := "aud" }
        (JWTUtils.generateToken
          { secret := "s", refreshSecret := "r", expiresIn := 900,
            refreshExpiresIn := 604800, issuer := "iss", audience := "aud" }
          { userId := "u1", email := "a@b.c" } 1000) 1000
        = .ok q ∧ q.userId = "u1" ∧ q.email = "a@b.c") ∧
    (∃ q, JWTUtils.verifyRefreshToken
        { secret := "s", refreshSecret := "r", expiresIn := 900,
          refreshExpiresIn := 604800, issuer := "iss", audience := "aud" }
        (JWTUtils.generateRefreshToken
          { secret := "s", refreshSecret := "r", expiresIn := 900,
            refreshExpiresIn := 604800, issuer := "iss", audience := "aud" }
          { userId := "u1", email := "a@b.c" } 1000) 1000
        = .ok q ∧ q.userId = "u1" ∧ q.email = "a@b.c") :=
  token_roundtrip
    { secret := "s", refreshSecret := "r", expiresIn := 900,
      refreshExpiresIn := 604800, issuer := "iss", audience := "aud" }
    { userId := "u1", email := "a@b.c" } 1000 (by decide) (by decide)

/-- Claim C4: secret isolation — with distinct access and refresh secrets,
a token issued with the access secret fails `verifyRefreshToken`, and a
token issued with the refresh secret fails `verifyToken`, at every
verification time. -/
theorem secret_isolation (cfg : JwtConfig) (p : AuthContext) (now n : Nat)
    (h : cfg.secret ≠ cfg.refreshSecret) :
    JWTUtils.verifyRefreshToken cfg (JWTUtils.generateToken cfg p now) n
      = .error "Invalid or expired refresh token" ∧
    JWTUtils.verifyToken cfg (JWTUtils.generateRefreshToken cfg p now) n
      = .error "Invalid or expired token" := by
  have h2 : cfg.refreshSecret ≠ cfg.secret := Ne.symm h
  constructor
  · simp [JWTUtils.verifyRefreshToken, JWTUtils.generateToken, jwtSign,
      jwtVerify, h]
  · simp [JWTUtils.verifyToken, JWTUtils.generateRefreshToken, jwtSign,
      jwtVerify, h2]

/-- Witness for C4 at a concrete configuration with distinct secrets. -/
theorem secret_isolation_witness :
    JWTUtils.verifyRefreshToken
      { secret := "s", refreshSecret := "r", expiresIn := 900,
        refreshExpiresIn := 604800, issuer := "iss", audience := "aud" }
      (JWTUtils.generateToken
        { secret := "s", refreshSecret := "r", expiresIn := 900,
          refreshExpiresIn := 604800, issuer := "iss", audience := "aud" }
        { userId := "u1", email := "a@b.c" } 1000) 1200
      = .error "Invalid or expired refresh token" ∧
    JWTUtils.verifyToken
      { secret := "s", refreshSecret := "r", expiresIn := 900,
        refreshExpiresIn := 604800, issuer := "iss", audience := "aud" }
      (JWTUtils.generateRefreshToken
        { secret := "s", refreshSecret := "r", expiresIn := 900,
          refreshExpiresIn := 604800, issuer := "iss", audience := "aud" }
        { userId := "u1", email := "a@b.c" } 1000) 1200
      = .error "Invalid or expired token" :=
  secret_isolation
    { secret := "s", refreshSecret := "r", expiresIn := 900,
      refreshExpiresIn := 604800, issuer := "iss", audience := "aud" }
    { userId := "u1", email := "a@b.c" } 1000 1200 (by decide)

/-- JavaScript `String.prototype.split` restricted to a single-character
separator, at the character-list level: every occurrence of the separator
splits, and empty segments are kept (`"a  b".split(' ')` is
`["a", "", "b"]`, `"".split(' ')` is `[""]`). -/
def jsSplitList (sep : Char) : List Char → List (List Char)
  | [] => [[]]
  | c :: cs =>
    if c = sep then [] :: jsSplitList sep cs
    else
      match jsSplitList sep cs with
      | [] => [[c]]
      | r :: rs => (c :: r) :: rs

/-- Model of `s.split(sep)` on strings, via `jsSplitList` on the character list. -/
def jsSplit (s : String) (sep : Char) : List String :=
  (jsSplitList sep s.toList).map (fun l => String.mk l)

/-- Model of `JWTUtils.extractTokenFromHeader`: a missing header (`undefined`) or an
empty header string is falsy and rejected with
`"Authorization header is required"`; otherwise the header is split on the
space character and must give exactly two parts with first part `"Bearer"`,
else `"Invalid authorization header format"`; the second part is returned. -/
def JWTUtils.extractTokenFromHeader (authHeader : Option String) :
    Except String String :=
  match authHeader with
  | none => .error "Authorization header is required"
  | some h =>
    if h = "" then .error "Authorization header is required"
    else
      match jsSplit h ' ' with
      | [p0, p1] =>
        if p0 = "Bearer" then .ok p1
        else .error "Invalid authorization header format"
      | _ => .error "Invalid authorization header format"

/-- The `AppError` base class (`src/errors/AppError.ts`): message, HTTP
status code, operational flag, and the `details` mapping carried by
`ValidationError` subclasses (empty when absent).  The timestamp and
request-context fields do not affect any claim and are omitted. -/
structure AppError where
  message : String
  statusCode : Nat
  isOperational : Bool
  details : List (String × List String) := []
deriving DecidableEq

/-- The `AuthError` subclass: status 401, operational. -/
def AuthError (message : String) : AppError :=
  { message := message, statusCode := 401, isOperational := true }

/-- The strict authentication middleware `authenticateToken`
(`src/middleware/auth.ts`): extract the bearer token from the
`Authorization` header, decode and verify it, attach the payload; any
failure at any step is caught and replaced by
`AuthError "Authentication failed"`.  `decode` models the external
library parse of the compact wire format back into a token (returning
`none` on malformed structure, which `jwt.verify` reports as an error). -/
def authenticateToken (cfg : JwtConfig) (decode : String → Option SignedToken)
    (authHeader : Option String) (now : Nat) : Except AppError JWTPayload :=
  match JWTUtils.extractTokenFromHeader authHeader with
  | .error _ => .error (AuthError "Authentication failed")
  | .ok tokenStr =>
    match decode tokenStr with
    | none => .error (AuthError "Authentication failed")
    | some t =>
      match JWTUtils.verifyToken cfg t now with
      | .error _ => .error (AuthError "Authentication failed")
      | .ok payload => .ok payload

/-- Claim C3: token verification failure is uniform — an expired token
(valid signature, issuer and audience, `exp` passed) and a forged-signature
token fail `verifyToken` with the very same error; indeed every failure of
`verifyToken` — malformed structure aside, wrong issuer and audience
included — carries the one message, so the results are observationally
equal; and the strict authentication middleware maps every failing
request, whatever the cause, to the one generic 401
`AuthError "Authentication failed"`. -/
theorem verify_failure_uniform (cfg : JwtConfig) :
    (∀ t n, t.sig = cfg.secret → t.iss = cfg.issuer → t.aud = cfg.audience →
      t.exp ≤ n → JWTUtils.verifyToken cfg t n
        = .error "Invalid or expired token") ∧
    (∀ t n, t.sig ≠ cfg.secret → JWTUtils.verifyToken cfg t n
        = .error "Invalid or expired token") ∧
    (∀ t n e, JWTUtils.verifyToken cfg t n = .error e →
      e = "Invalid or expired token") ∧
    (∀ decode authHeader now e,
      authenticateToken cfg decode authHeader now = .error e →
      e = AuthError "Authentication failed") := by
  refine ⟨?_, ?_, ?_, ?_⟩
  · intro t n hsig hiss haud hexp
    simp [JWTUtils.verifyToken, jwtVerify, hsig, hiss, haud, hexp]
  · intro t n hsig
    simp [JWTUtils.verifyToken, jwtVerify, hsig]
  · intro t n e h
    unfold JWTUtils.verifyToken at h
    split at h
    · exact absurd h (by simp)
    · exact (Except.error.inj h).symm
  · intro decode authHeader now e h
    unfold authenticateToken at h
    split at h
    · exact (Except.error.inj h).symm
    · split at h
      · exact (Except.error.inj h).symm
      · split at h
        · exact (Except.error.inj h).symm
        · exact absurd h (by simp)

/-- Witness for C3: at a concrete configuration, an expired token and a
forged-signature token produce the identical verification error, and a
concrete failing request produces exactly the generic 401 error. -/
theorem verify_failure_uniform_witness :
    JWTUtils.verifyToken
      { secret := "s", refreshSecret := "r", expiresIn := 900,
        refreshExpiresIn := 604800, issuer := "iss", audience := "aud" }
      (SignedToken.mk "u" "e@x" 0 100 "iss" "aud" "s") 2000
      = .error "Invalid or expired token" ∧
    JWTUtils.verifyToken
      { secret := "s", refreshSecret := "r", expiresIn := 900,
        refreshExpiresIn := 604800, issuer := "iss", audience := "aud" }
      (SignedToken.mk "u" "e@x" 0 9999 "iss" "aud" "evil") 2000
      = .error "Invalid or expired token" ∧
    "Invalid or expired token" = "Invalid or expired token" ∧
    AuthError "Authentication failed" = AuthError "Authentication failed" :=
  ⟨(verify_failure_uniform
      { secret := "s", refreshSecret := "r", expiresIn := 900,
        refreshExpiresIn := 604800, issuer := "iss", audience := "aud" }).1
      (SignedToken.mk "u" "e@x" 0 100 "iss" "aud" "s") 2000
      (by decide) (by decide) (by decide) (by decide),
   (verify_failure_uniform
      { secret := "s", refreshSecret := "r", expiresIn := 900,
        refreshExpiresIn := 604800, issuer := "iss", audience := "aud" }).2.1
      (SignedToken.mk "u" "e@x" 0 9999 "iss" "aud" "evil") 2000 (by decide),
   (verify_failure_uniform
      { secret := "s", refreshSecret := "r", expiresIn := 900,
        refreshExpiresIn := 604800, issuer := "iss",
        audience := "aud" }).2.2.1
      (SignedToken.mk "u" "e@x" 0 100 "iss" "aud" "s") 2000
      "Invalid or expired token" rfl,
   (verify_failure_uniform
      { secret := "s", refreshSecret := "r", expiresIn := 900,
        refreshExpiresIn := 604800, issuer := "iss",
        audience := "aud" }).2.2.2
      (fun _ => none) (some "Bearer x") 2000
      (AuthError "Authentication failed") rfl⟩

/-- JavaScript `a || b` on `string | undefined` values: `undefined` and the
empty string are falsy, so they fall through to `b`. -/
def jsOr (a b : Option String) : Option String :=
  match a with
  | some s => if s = "" then b else some s
  | none => b

/-- The ownership-check middleware `requireOwnership(userIdParam)`
(`src/middleware/auth.ts`): requires an authenticated user; reads the
resource id as `req.params[userIdParam] || req.body[userIdParam]` and
rejects with `AuthError "Access denied: You can only access your own
resources"` unless it strictly equals the authenticated `userId`. -/
def requireOwnership (userIdParam : String) (user : Option JWTPayload)
    (params body : String → Option String) : Except AppError Unit :=
  match user with
  | none => .error (AuthError "Authentication required")
  | some u =>
    let resourceUserId := jsOr (params userIdParam) (body userIdParam)
    if resourceUserId = some u.userId then .ok ()
    else .error (AuthError "Access denied: You can only access your own resources")

/-- The uniform error envelope rendered by `globalErrorHandler`
(`src/errors/errorHandler.ts`) for an `AppError` input: `success:false`
with the message, status code and details of the error, enriched with the
request path and method.  Timestamp and the development-only stack field
are omitted. -/
structure ErrorResponse where
  success : Bool
  message : String
  statusCode : Nat
  path : String
  method : String
  details : List (String × List String)
deriving DecidableEq

/-- Model of `globalErrorHandler` restricted to inputs that already are `AppError`
instances (the middleware errors in the claims all are): the response
status and message come straight from the error. -/
def globalErrorHandler (e : AppError) (reqPath reqMethod : String) :
    ErrorResponse :=
  { success := false, message := e.message, statusCode := e.statusCode,
    path := reqPath, method := reqMethod, details := e.details }

/-- Counterexample to claim C2 as stated: with authenticated id `"a"` and
path id `"b"`, the ownership check fails with the claimed message but the
error — an `AuthError` — carries status code 401, not the claimed 403. -/
theorem requireOwnership_status_counterexample :
    requireOwnership "userId" (some (JWTPayload.mk "a" "a@x.com" 0 100))
      (fun k => if k = "userId" then some "b" else none) (fun _ => none)
      = .error (AppError.mk
          "Access denied: You can only access your own resources" 401 true [])
      ∧ (401 : Nat) ≠ 403 := by
  constructor
  · rfl
  · decide

/-- Claim C2 as amended: for every request carrying an authenticated
identity whose `userId` differs from the id supplied in the route path (or
body), `requireOwnership` fails the request with an `AuthError` whose
rendered response carries status code 401 and message
`"Access denied: You can only access your own resources"`, regardless of
payload validity. -/
theorem requireOwnership_mismatch (userIdParam : String) (u : JWTPayload)
    (params body : String → Option String) (reqPath reqMethod : String)
    (h : jsOr (params userIdParam) (body userIdParam) ≠ some u.userId) :
    requireOwnership userIdParam (some u) params body
      = .error (AuthError
          "Access denied: You can only access your own resources") ∧
    ∀ e, requireOwnership userIdParam (some u) params body = .error e →
      (globalErrorHandler e reqPath reqMethod).statusCode = 401 ∧
      (globalErrorHandler e reqPath reqMethod).message
        = "Access denied: You can only access your own resources" := by
  have hmain : requireOwnership userIdParam (some u) params body
      = .error (AuthError
          "Access denied: You can only access your own resources") := by
    unfold requireOwnership
    simp [h]
  refine ⟨hmain, fun e he => ?_⟩
  rw [hmain] at he
  have : AuthError "Access denied: You can only access your own resources"
      = e := Except.error.inj he
  subst this
  exact ⟨rfl, rfl⟩

/-- Witness for C2 (amended) at concrete identities `"a"` vs path id `"b"`. -/
theorem requireOwnership_mismatch_witness :
    requireOwnership "userId" (some (JWTPayload.mk "a" "a@x.com" 0 100))
      (fun k => if k = "userId" then some "b" else none) (fun _ => none)
      = .error (AuthError
          "Access denied: You can only access your own resources") ∧
    ∀ e, requireOwnership "userId" (some (JWTPayload.mk "a" "a@x.com" 0 100))
      (fun k => if k = "userId" then some "b" else none) (fun _ => none)
      = .error e →
      (globalErrorHandler e "/api/users/b" "GET").statusCode = 401 ∧
      (globalErrorHandler e "/api/users/b" "GET").message
        = "Access denied: You can only access your own resources" :=
  requireOwnership_mismatch "userId" (JWTPayload.mk "a" "a@x.com" 0 100)
    (fun k => if k = "userId" then some "b" else none) (fun _ => none)
    "/api/users/b" "GET" (by decide)

/-- Claim C10: the ownership check grants access only on an explicit id
match — with an authenticated identity it proceeds exactly when the route
path parameters supply a non-empty value under the configured key equal to
the authenticated `userId`, or, the path value being absent or empty, the
request body supplies such a value; and when neither source supplies the
key at all, the check always fails — a missing resource id never grants
access. -/
theorem requireOwnership_grant_iff (userIdParam : String) (u : JWTPayload)
    (params body : String → Option String) :
    (requireOwnership userIdParam (some u) params body = .ok () ↔
      (params userIdParam = some u.userId ∧ u.userId ≠ "") ∨
      ((params userIdParam = none ∨ params userIdParam = some "") ∧
        body userIdParam = some u.userId)) ∧
    (params userIdParam = none → body userIdParam = none →
      requireOwnership userIdParam (some u) params body
        = .error (AuthError
            "Access denied: You can only access your own resources")) := by
  constructor
  · have hred : requireOwnership userIdParam (some u) params body = .ok () ↔
        jsOr (params userIdParam) (body userIdParam) = some u.userId := by
      unfold requireOwnership
      by_cases h :
          jsOr (params userIdParam) (body userIdParam) = some u.userId <;>
        simp [h]
    rw [hred]
    unfold jsOr
    rcases hp : params userIdParam with _ | s
    · simp
    · by_cases hs : s = ""
      · subst hs
        simp
        intro hb hne
        exact absurd hb.symm hne
      · simp [hs]
        intro h he
        exact hs (h.trans he)
  · intro hp hb
    unfold requireOwnership jsOr
    simp [hp, hb]

/-- Witness for C10: with neither path nor body supplying `"userId"`, the
check rejects a concrete authenticated request. -/
theorem requireOwnership_grant_iff_witness :
    requireOwnership "userId" (some (JWTPayload.mk "a" "a@x.com" 0 100))
      (fun _ => none) (fun _ => none)
      = .error (AuthError
          "Access denied: You can only access your own resources") :=
  (requireOwnership_grant_iff "userId" (JWTPayload.mk "a" "a@x.com" 0 100)
    (fun _ => none) (fun _ => none)).2 rfl rfl

/-- The storage-layer faults Prisma can raise, as matched by
`handlePrismaError`: a known request error carrying a string code, a
validation error, an initialization error, or a Rust panic. -/
inductive PrismaError where
  | knownRequest (code : String)
  | validation
  | initialization
  | rustPanic
deriving DecidableEq

/-- Model of `handlePrismaError` (`src/errors/errorHandler.ts`): translate a Prisma
fault to an `AppError`.  Known request errors dispatch on the code —
`P2002` (unique constraint) → 409, `P2025` (record missing) → 404, `P2003`
(foreign key) → 400, `P2014` (invalid id) → 400 — with every other code
falling to the 500 `"Database operation failed"` default; the `AppError`
constructor default `isOperational` is `true` in all of these. -/
def handlePrismaError (e : PrismaError) : AppError :=
  match e with
  | .knownRequest code =>
    if code = "P2002" then
      { message := "A record with this information already exists",
        statusCode := 409, isOperational := true }
    else if code = "P2025" then
      { message := "Record not found", statusCode := 404,
        isOperational := true }
    else if code = "P2003" then
      { message := "Foreign key constraint failed", statusCode := 400,
        isOperational := true }
    else if code = "P2014" then
      { message := "Invalid ID provided", statusCode := 400,
        isOperational := true }
    else
      { message := "Database operation failed", statusCode := 500,
        isOperational := true }
  | .validation =>
    { message := "Invalid data provided", statusCode := 400,
      isOperational := true }
  | .initialization =>
    { message := "Database connection failed", statusCode := 500,
      isOperational := true }
  | .rustPanic =>
    { message := "Database engine error", statusCode := 500,
      isOperational := true }

/-- Counterexample to claim C6 as stated: the known-request code `P2014` is
matched by none of the unique-constraint (`P2002`), record-missing
(`P2025`) or foreign-key (`P2003`) rules, yet it does not fall through to
the 500 `"Database operation failed"` default — it is translated to a 400
`"Invalid ID provided"` error by a fourth special case. -/
theorem handlePrismaError_default_counterexample :
    handlePrismaError (.knownRequest "P2014")
      = AppError.mk "Invalid ID provided" 400 true [] ∧
    handlePrismaError (.knownRequest "P2014")
      ≠ AppError.mk "Database operation failed" 500 true [] := by
  constructor
  · rfl
  · decide

/-- Claim C6 as amended: the storage-fault translator maps a
unique-constraint fault (`P2002`) to a 409 error with message
`"A record with this information already exists"`, and every known-request
storage fault not matched by the unique-constraint, record-missing,
foreign-key, or invalid-id (`P2014`) rules falls through to the default
translation: a 500 error with message `"Database operation failed"` marked
`isOperational := true`. -/
theorem handlePrismaError_conflict_and_default (code : String)
    (h : code ≠ "P2002" ∧ code ≠ "P2025" ∧ code ≠ "P2003" ∧ code ≠ "P2014") :
    handlePrismaError (.knownRequest "P2002")
      = AppError.mk "A record with this information already exists" 409
          true [] ∧
    handlePrismaError (.knownRequest code)
      = AppError.mk "Database operation failed" 500 true [] := by
  obtain ⟨h1, h2, h3, h4⟩ := h
  exact ⟨rfl, by simp [handlePrismaError, h1, h2, h3, h4]⟩

/-- Witness for C6 (amended) at the unmatched code `"P1000"`. -/
theorem handlePrismaError_default_witness :
    handlePrismaError (.knownRequest "P2002")
      = AppError.mk "A record with this information already exists" 409
          true [] ∧
    handlePrismaError (.knownRequest "P1000")
      = AppError.mk "Database operation failed" 500 true [] :=
  handlePrismaError_conflict_and_default "P1000" (by decide)

/-- JavaScript `parseInt(s, 10)`: skip leading whitespace, take an optional
sign and the longest leading digit run; `NaN` (here `none`) when no digit
follows. Trailing garbage is ignored. -/
def leadingDigits : List Char → List Char
  | [] => []
  | c :: cs => if c.isDigit then c :: leadingDigits cs else []

/-- Numeric value of a digit run, most significant first. -/
def digitsVal (l : List Char) : Nat :=
  l.foldl (fun a c => a * 10 + (c.toNat - 48)) 0

/-- See `leadingDigits`; `none` models `NaN`. -/
def jsParseInt (s : String) : Option Int :=
  let l := s.toList.dropWhile (fun c => c.isWhitespace)
  match l with
  | '-' :: rest =>
    match leadingDigits rest with
    | [] => none
    | ds => some (-(digitsVal ds : Int))
  | '+' :: rest =>
    match leadingDigits rest with
    | [] => none
    | ds => some ((digitsVal ds : Int))
  | _ =>
    match leadingDigits l with
    | [] => none
    | ds => some ((digitsVal ds : Int))

/-- The raw query input seen by the pagination schema: the two relevant
query parameters, each an optional string. -/
structure PaginationQuery where
  page : Option String
  limit : Option String
deriving DecidableEq

/-- The normalized output of the pagination schema. -/
structure Pagination where
  page : Int
  limit : Int
deriving DecidableEq

/-- The `page` pipeline `z.string().optional().transform(val => val ?
parseInt(val, 10) : 1)`: a missing or empty (falsy) value defaults to 1,
anything else goes through `parseInt`; `none` models `NaN`. -/
def pageTransform (v : Option String) : Option Int :=
  match v with
  | none => some 1
  | some s => if s = "" then some 1 else jsParseInt s

/-- The `limit` pipeline, defaulting to 10. -/
def limitTransform (v : Option String) : Option Int :=
  match v with
  | none => some 10
  | some s => if s = "" then some 10 else jsParseInt s

/-- A Zod `.refine(check, message)` step on a transformed value: a `NaN`
or a value failing the check yields one issue at the path of the field. -/
def refineField (x : Option Int) (check : Int → Bool) (path msg : String) :
    Except (List (String × String)) Int :=
  match x with
  | none => .error [(path, msg)]
  | some k => if check k then .ok k else .error [(path, msg)]

/-- The `page` field of `paginationSchema`: transform then
the refine step requiring a positive value. -/
def parsePage (v : Option String) : Except (List (String × String)) Int :=
  refineField (pageTransform v) (fun k => decide (0 < k)) "page"
    "Page must be a positive integer"

/-- The `limit` field of `paginationSchema`:
the refine step requiring a value between 1 and 100. -/
def parseLimit (v : Option String) : Except (List (String × String)) Int :=
  refineField (limitTransform v) (fun k => decide (0 < k) && decide (k ≤ 100))
    "limit" "Limit must be between 1 and 100"

/-- Zod object parsing over the two fields: both succeed, or the issues of
every failing field are concatenated in field order (Zod aggregates issues
across the properties of an object rather than stopping at the first). -/
def zodObject2 (a b : Except (List (String × String)) Int) :
    Except (List (String × String)) Pagination :=
  match a, b with
  | .ok p, .ok l => .ok { page := p, limit := l }
  | .ok _, .error e => .error e
  | .error e, .ok _ => .error e
  | .error e1, .error e2 => .error (e1 ++ e2)

/-- Model of `paginationSchema.parse` on a query object. -/
def paginationSchemaParse (q : PaginationQuery) :
    Except (List (String × String)) Pagination :=
  zodObject2 (parsePage q.page) (parseLimit q.limit)

/-- One step of the `details` accumulation in the `validate` middleware:
append the message to the entry for its dot-joined path, creating the
entry on first occurrence. -/
def addIssue (d : List (String × List String)) (path msg : String) :
    List (String × List String) :=
  match d with
  | [] => [(path, [msg])]
  | (p, ms) :: rest =>
    if p = path then (p, ms ++ [msg]) :: rest
    else (p, ms) :: addIssue rest path msg

/-- Model of the `ZodError` handling in `validate`: fold every issue into
the `details` mapping from field path to the list of messages of that
field. -/
def buildDetails (issues : List (String × String)) :
    List (String × List String) :=
  issues.foldl (fun d i => addIssue d i.1 i.2) []

/-- The pagination query validation middleware: on success the
normalized value replaces the raw input; on a `ZodError` all issues are
collected into one 400 `ValidationError "Validation failed"` carrying the
`details` mapping. -/
def validateQueryPagination (q : PaginationQuery) :
    Except AppError Pagination :=
  match paginationSchemaParse q with
  | .ok v => .ok v
  | .error issues =>
    .error { message := "Validation failed", statusCode := 400,
             isOperational := true, details := buildDetails issues }

/-- A failing `refineField` step always reports exactly its own single
issue at its own path. -/
theorem refineField_error_shape (x : Option Int) (check : Int → Bool)
    (path msg : String) (e : List (String × String))
    (h : refineField x check path msg = .error e) : e = [(path, msg)] := by
  unfold refineField at h
  split at h
  · exact (Except.error.inj h).symm
  · split at h
    · exact absurd h (by simp)
    · exact (Except.error.inj h).symm

/-- Claim C7: on a validation violation of the pagination schema, every
failing field is collected — not just the first — into one `details`
mapping from field path to the own message list of that field, surfaced as
a single 400 `ValidationError`; when both `page` and `limit` fail, both
appear as keys of `details` with their own messages. -/
theorem validation_collects_all_fields (q : PaginationQuery)
    (hp : ∃ e, parsePage q.page = .error e)
    (hl : ∃ e, parseLimit q.limit = .error e) :
    validateQueryPagination q
      = .error (AppError.mk "Validation failed" 400 true
          [("page", ["Page must be a positive integer"]),
           ("limit", ["Limit must be between 1 and 100"])]) := by
  obtain ⟨e1, he1⟩ := hp
  obtain ⟨e2, he2⟩ := hl
  have h1 : e1 = [("page", "Page must be a positive integer")] :=
    refineField_error_shape _ _ _ _ _ he1
  have h2 : e2 = [("limit", "Limit must be between 1 and 100")] :=
    refineField_error_shape _ _ _ _ _ he2
  subst h1
  subst h2
  have hcomb : paginationSchemaParse q
      = .error [("page", "Page must be a positive integer"),
                ("limit", "Limit must be between 1 and 100")] := by
    unfold paginationSchemaParse
    rw [he1, he2]
    rfl
  unfold validateQueryPagination
  rw [hcomb]
  rfl

/-- Witness for C7 on the input `{page:"-1", limit:"0"}`: both fields fail
and both are present as keys of `details`. -/
theorem validation_collects_all_fields_witness :
    validateQueryPagination { page := some "-1", limit := some "0" }
      = .error (AppError.mk "Validation failed" 400 true
          [("page", ["Page must be a positive integer"]),
           ("limit", ["Limit must be between 1 and 100"])]) :=
  validation_collects_all_fields { page := some "-1", limit := some "0" }
    ⟨[("page", "Page must be a positive integer")], rfl⟩
    ⟨[("limit", "Limit must be between 1 and 100")], rfl⟩

/-- Claim C8: the pagination schema coerces and defaults query strings —
`{page:"2", limit:"25"}` validates to `{page:2, limit:25}` (string to
integer coercion), the empty input validates to `{page:1, limit:10}`
(defaults applied), and any input whose validation succeeds has positive
`page` and `limit` (non-positive results are rejected). -/
theorem pagination_coercion_defaults :
    paginationSchemaParse { page := some "2", limit := some "25" }
      = .ok { page := 2, limit := 25 } ∧
    paginationSchemaParse { page := none, limit := none }
      = .ok { page := 1, limit := 10 } ∧
    ∀ q p, paginationSchemaParse q = .ok p → 0 < p.page ∧ 0 < p.limit := by
  refine ⟨rfl, rfl, ?_⟩
  intro q p h
  unfold paginationSchemaParse zodObject2 at h
  cases ha : parsePage q.page with
  | error e => rw [ha] at h; cases hb : parseLimit q.limit <;> rw [hb] at h <;>
      exact absurd h (by simp)
  | ok kp =>
    rw [ha] at h
    cases hb : parseLimit q.limit with
    | error e => rw [hb] at h; exact absurd h (by simp)
    | ok kl =>
      rw [hb] at h
      have hp : p = { page := kp, limit := kl } := (Except.ok.inj h).symm
      subst hp
      unfold parsePage refineField at ha
      unfold parseLimit refineField at hb
      constructor
      · split at ha
        · exact absurd ha (by simp)
        · rename_i k heq
          split at ha
          · rename_i hk
            have hkp := Except.ok.inj ha
            subst hkp
            exact (by simpa using hk)
          · exact absurd ha (by simp)
      · split at hb
        · exact absurd hb (by simp)
        · rename_i k heq
          split at hb
          · rename_i hk
            have hkl := Except.ok.inj hb
            subst hkl
            have hconj : (0 : Int) < k ∧ k ≤ 100 := by simpa using hk
            exact hconj.1
          · exact absurd hb (by simp)

/-- Witness for the rejection clause of C8 at a succeeding concrete input. -/
theorem pagination_coercion_defaults_witness :
    0 < (Pagination.mk 5 7).page ∧ 0 < (Pagination.mk 5 7).limit :=
  pagination_coercion_defaults.2.2 { page := some "5", limit := some "7" }
    (Pagination.mk 5 7) rfl

/-- A stored user record (`models/User.ts`): `password` holds the bcrypt
hash; timestamps are modelled as numbers. -/
structure User where
  id : String
  email : String
  name : Option String
  password : String
  createdAt : Nat
  updatedAt : Nat
deriving DecidableEq

/-- The client-facing user shape: `userToResponse` drops the password. -/
structure UserResponse where
  id : String
  email : String
  name : Option String
  createdAt : Nat
  updatedAt : Nat
deriving DecidableEq

/-- Model of `userToResponse` (`models/User.ts`). -/
def userToResponse (u : User) : UserResponse :=
  { id := u.id, email := u.email, name := u.name, createdAt := u.createdAt,
    updatedAt := u.updatedAt }

/-- Model of `UserService.verifyPassword(email, password)`: look the user up by
email; absent user or failed bcrypt comparison both return `null`
(`none`).  The bcrypt comparison and the repository lookup are external
collaborators, passed in as functions. -/
def UserService.verifyPassword (bcryptCompare : String → String → Bool)
    (findByEmail : String → Option User) (email password : String) :
    Option UserResponse :=
  match findByEmail email with
  | none => none
  | some user =>
    if bcryptCompare password user.password then some (userToResponse user)
    else none

/-- The failure behaviour of the `POST /login` handler
(`src/routes/auth.ts`): when `verifyPassword` returns `null` the request
is rejected with `AuthError "Invalid email or password"`; otherwise the
handler succeeds with the verified user (token issuance abstracted). -/
def loginHandler (bcryptCompare : String → String → Bool)
    (findByEmail : String → Option User) (email password : String) :
    Except AppError UserResponse :=
  match UserService.verifyPassword bcryptCompare findByEmail email password
      with
  | none => .error (AuthError "Invalid email or password")
  | some user => .ok user

/-- Claim C9: login failure is cause-blind — `verifyPassword` returns
`null` both when no user record has the given email and when a record
exists but the password fails the bcrypt comparison against its stored
hash, and the login route then rejects with the identical 401
`"Invalid email or password"` error in both cases, making the two failure
causes observationally indistinguishable. -/
theorem login_cause_blind (bcryptCompare : String → String → Bool)
    (findByEmail : String → Option User) (e1 p1 e2 p2 : String) (u : User)
    (h1 : findByEmail e1 = none) (h2 : findByEmail e2 = some u)
    (h3 : bcryptCompare p2 u.password = false) :
    UserService.verifyPassword bcryptCompare findByEmail e1 p1 = none ∧
    UserService.verifyPassword bcryptCompare findByEmail e2 p2 = none ∧
    loginHandler bcryptCompare findByEmail e1 p1
      = .error (AuthError "Invalid email or password") ∧
    loginHandler bcryptCompare findByEmail e2 p2
      = .error (AuthError "Invalid email or password") ∧
    loginHandler bcryptCompare findByEmail e1 p1
      = loginHandler bcryptCompare findByEmail e2 p2 := by
  have hv1 : UserService.verifyPassword bcryptCompare findByEmail e1 p1
      = none := by
    unfold UserService.verifyPassword
    rw [h1]
  have hv2 : UserService.verifyPassword bcryptCompare findByEmail e2 p2
      = none := by
    unfold UserService.verifyPassword
    rw [h2]
    simp [h3]
  have hl1 : loginHandler bcryptCompare findByEmail e1 p1
      = .error (AuthError "Invalid email or password") := by
    unfold loginHandler
    rw [hv1]
  have hl2 : loginHandler bcryptCompare findByEmail e2 p2
      = .error (AuthError "Invalid email or password") := by
    unfold loginHandler
    rw [hv2]
  exact ⟨hv1, hv2, hl1, hl2, hl1.trans hl2.symm⟩

/-- Witness for C9 with a concrete single-user store and equality as the
(mocked) bcrypt comparison: an unknown email and a wrong password reject
identically. -/
theorem login_cause_blind_witness :
    UserService.verifyPassword (fun a b => a == b)
      (fun e => if e = "a@b.c"
        then some (User.mk "u1" "a@b.c" (some "A") "hash1" 0 0) else none)
      "nobody@x.y" "pw" = none ∧
    UserService.verifyPassword (fun a b => a == b)
      (fun e => if e = "a@b.c"
        then some (User.mk "u1" "a@b.c" (some "A") "hash1" 0 0) else none)
      "a@b.c" "wrong" = none ∧
    loginHandler (fun a b => a == b)
      (fun e => if e = "a@b.c"
        then some (User.mk "u1" "a@b.c" (some "A") "hash1" 0 0) else none)
      "nobody@x.y" "pw" = .error (AuthError "Invalid email or password") ∧
    loginHandler (fun a b => a == b)
      (fun e => if e = "a@b.c"
        then some (User.mk "u1" "a@b.c" (some "A") "hash1" 0 0) else none)
      "a@b.c" "wrong" = .error (AuthError "Invalid email or password") ∧
    loginHandler (fun a b => a == b)
      (fun e => if e = "a@b.c"
        then some (User.mk "u1" "a@b.c" (some "A") "hash1" 0 0) else none)
      "nobody@x.y" "pw"
      = loginHandler (fun a b => a == b)
        (fun e => if e = "a@b.c"
          then some (User.mk "u1" "a@b.c" (some "A") "hash1" 0 0) else none)
        "a@b.c" "wrong" :=
  login_cause_blind (fun a b => a == b)
    (fun e => if e = "a@b.c"
      then some (User.mk "u1" "a@b.c" (some "A") "hash1" 0 0) else none)
    "nobody@x.y" "pw" "a@b.c" "wrong"
    (User.mk "u1" "a@b.c" (some "A") "hash1" 0 0) (by simp) (by simp)
    (by simp)

/-- The function `jsSplitList` never returns the empty list: splitting always yields at
least one (possibly empty) segment. -/
theorem jsSplitList_ne_nil (sep : Char) (l : List Char) :
    jsSplitList sep l ≠ [] := by
  induction l with
  | nil => simp [jsSplitList]
  | cons c cs ih =>
    unfold jsSplitList
    by_cases hc : c = sep
    · simp [hc]
    · rw [if_neg hc]
      cases hcs : jsSplitList sep cs with
      | nil => simp
      | cons r rs => simp

/-- Splitting a separator-free list yields that single segment. -/
theorem jsSplitList_no_sep (sep : Char) (l : List Char) (h : sep ∉ l) :
    jsSplitList sep l = [l] := by
  induction l with
  | nil => rfl
  | cons c cs ih =>
    have hc : c ≠ sep := fun hcc => h (hcc ▸ List.mem_cons_self c cs)
    have hcs : sep ∉ cs := fun hm => h (List.mem_cons_of_mem c hm)
    unfold jsSplitList
    rw [if_neg hc, ih hcs]

/-- Conversely, a single-segment split means the input was that segment
and it is separator-free. -/
theorem jsSplitList_single_rev (sep : Char) (l x : List Char)
    (h : jsSplitList sep l = [x]) : l = x ∧ sep ∉ x := by
  induction l generalizing x with
  | nil =>
    unfold jsSplitList at h
    obtain ⟨hx, _⟩ := List.cons.inj h
    exact ⟨hx, by rw [← hx]; simp⟩
  | cons c cs ih =>
    unfold jsSplitList at h
    by_cases hc : c = sep
    · rw [if_pos hc] at h
      exact absurd (List.cons.inj h).2.symm
        (fun hnil => jsSplitList_ne_nil sep cs hnil.symm)
    · rw [if_neg hc] at h
      cases hcs : jsSplitList sep cs with
      | nil => exact absurd hcs (jsSplitList_ne_nil sep cs)
      | cons r rs =>
        rw [hcs] at h
        obtain ⟨hx, hrs⟩ := List.cons.inj h
        subst hrs
        obtain ⟨hcseq, hsep⟩ := ih r hcs
        subst hcseq
        refine ⟨hx, ?_⟩
        rw [← hx]
        intro hm
        rcases List.mem_cons.mp hm with h1 | h2
        · exact hc h1.symm
        · exact hsep h2

/-- Splitting `a ++ sep :: b` with separator-free `a` and `b` yields
exactly the two segments. -/
theorem jsSplitList_append (sep : Char) (a b : List Char)
    (ha : sep ∉ a) (hb : sep ∉ b) :
    jsSplitList sep (a ++ sep :: b) = [a, b] := by
  induction a with
  | nil =>
    simp only [List.nil_append]
    unfold jsSplitList
    rw [if_pos rfl, jsSplitList_no_sep sep b hb]
  | cons c cs ih =>
    have hc : c ≠ sep := fun hcc => ha (hcc ▸ List.mem_cons_self c cs)
    have hcs : sep ∉ cs := fun hm => ha (List.mem_cons_of_mem c hm)
    simp only [List.cons_append]
    unfold jsSplitList
    rw [if_neg hc, ih hcs]

/-- Conversely, a two-segment split means the input was the two segments
joined by one separator, and each segment is separator-free. -/
theorem jsSplitList_pair_rev (sep : Char) (l a b : List Char)
    (h : jsSplitList sep l = [a, b]) :
    l = a ++ sep :: b ∧ sep ∉ a ∧ sep ∉ b := by
  induction l generalizing a with
  | nil =>
    unfold jsSplitList at h
    exact absurd (List.cons.inj h).2.symm (by simp)
  | cons c cs ih =>
    unfold jsSplitList at h
    by_cases hc : c = sep
    · rw [if_pos hc] at h
      obtain ⟨ha, htail⟩ := List.cons.inj h
      obtain ⟨hcseq, hsep⟩ := jsSplitList_single_rev sep cs b htail
      subst hc
      subst hcseq
      rw [← ha]
      exact ⟨rfl, by simp, hsep⟩
    · rw [if_neg hc] at h
      cases hcs : jsSplitList sep cs with
      | nil => exact absurd hcs (jsSplitList_ne_nil sep cs)
      | cons r rs =>
        rw [hcs] at h
        obtain ⟨hx, hrs⟩ := List.cons.inj h
        subst hrs
        obtain ⟨hl, hra, hrb⟩ := ih r hcs
        subst hl
        rw [← hx]
        refine ⟨rfl, ?_, hrb⟩
        intro hm
        rcases List.mem_cons.mp hm with h1 | h2
        · exact hc h1.symm
        · exact hra h2

/-- Mapping `String.mk` onto a list that produces exactly two strings
pins the list down to the character lists of the two strings. -/
theorem map_mk_eq_pair (l : List (List Char)) (x y : String)
    (h : l.map (fun c => String.mk c) = [x, y]) :
    l = [x.toList, y.toList] := by
  cases l with
  | nil => exact absurd h (by simp)
  | cons a l2 =>
    cases l2 with
    | nil => exact absurd h (by simp)
    | cons b l3 =>
      cases l3 with
      | nil =>
        simp only [List.map_cons, List.map_nil] at h
        obtain ⟨h1, h23⟩ := List.cons.inj h
        obtain ⟨h2, _⟩ := List.cons.inj h23
        rw [← h1, ← h2]
        rfl
      | cons d l4 => exact absurd h (by simp)

/-- Counterexample to claim C5 as stated: the header `"Bearer "` — the
`Bearer` prefix followed by a single space and an empty token — splits
into exactly two space-delimited parts (`["Bearer", ""]`), so extraction
succeeds and returns the empty token rather than failing. -/
theorem extractTokenFromHeader_empty_token_counterexample :
    JWTUtils.extractTokenFromHeader (some "Bearer ") = .ok "" := by
  rfl

/-- Claim C5 as amended: `extractTokenFromHeader` succeeds with token `t`
exactly when the header is present and of the exact form
`"Bearer " ++ t` with `t` containing no space — a single space, exactly
two space-delimited parts, but the token may be empty.  In particular it
fails for a missing header, a header without the `"Bearer "` prefix, and
a header with extra whitespace segments. -/
theorem extractTokenFromHeader_ok_iff (h : Option String) (t : String) :
    JWTUtils.extractTokenFromHeader h = .ok t ↔
      h = some ("Bearer " ++ t) ∧ ' ' ∉ t.toList := by
  constructor
  · intro hok
    cases h with
    | none => exact absurd hok (by simp [JWTUtils.extractTokenFromHeader])
    | some s =>
      simp only [JWTUtils.extractTokenFromHeader] at hok
      by_cases hs : s = ""
      · rw [if_pos hs] at hok
        exact absurd hok (by simp)
      · rw [if_neg hs] at hok
        split at hok
        · rename_i p0 p1 heq
          split at hok
          · rename_i hp0
            have hpt : p1 = t := Except.ok.inj hok
            subst hpt
            subst hp0
            have hll : jsSplitList ' ' s.toList
                = ["Bearer".toList, p1.toList] :=
              map_mk_eq_pair _ _ _ heq
            obtain ⟨hdata, _, hnb⟩ :=
              jsSplitList_pair_rev ' ' s.toList "Bearer".toList p1.toList hll
            refine ⟨?_, hnb⟩
            have hseq : s = "Bearer " ++ p1 := by
              apply String.ext
              rw [String.data_append]
              exact hdata
            rw [hseq]
          · exact absurd hok (by simp)
        · exact absurd hok (by simp)
  · rintro ⟨rfl, hnb⟩
    have hne : ("Bearer " ++ t) ≠ "" := by
      intro hcon
      have hd := congrArg String.data hcon
      rw [String.data_append] at hd
      exact absurd hd (by simp)
    simp only [JWTUtils.extractTokenFromHeader]
    rw [if_neg hne]
    have hsp : jsSplit ("Bearer " ++ t) ' ' = ["Bearer", t] := by
      unfold jsSplit
      have hdl : ("Bearer " ++ t).toList = "Bearer".toList ++ ' ' :: t.toList
          := by
        show ("Bearer " ++ t).data = "Bearer".data ++ ' ' :: t.data
        rw [String.data_append]
        rfl
      rw [hdl, jsSplitList_append ' ' "Bearer".toList t.toList (by decide)
        hnb]
      rfl
    rw [hsp]
    simp
